import Mathlib

/-!
Verification of the trax supervised-training orchestrator
(`trax/supervised/training.py`) against its design specification.

The Python module is shallowly embedded below.  Conventions used throughout:

* Python integers are `Int` (step counters may be loaded from checkpoints);
  Python `%` on a positive divisor agrees with Lean's `Int.emod`, which is
  what `%` denotes on `Int` here.
* Opaque numeric payloads (weight trees, optimizer slots, batches, flattened
  state, learning-rate values) are a type parameter `V`: the orchestrator
  only moves them around, serializes them and restores them.
* The file system visible through `tf.io.gfile` is a map from path strings
  to stored records; `GFile` writes and `gfile.rename` are the two
  primitive operations the checkpoint store uses.
* Python truthiness tests on optional arguments (`x or default`) are
  embedded exactly: `None`, empty lists and empty strings are falsy.
* External collaborators (the JAX PRNG, the jitted `Trainer.one_step`, the
  model's `init`/`init_from_file`) are either modelled from the spec (the
  PRNG, see `rngSplit`) or taken as opaque function parameters.
-/

/-! ## Scheduling predicates (`_never`, `_at_step_1_and_every_nth_step`) -/

/-- Source `_never(*args)`: returns `False` for all step numbers
(training.py lines 804-807). -/
def _never : Int → Bool := fun _ => false

/-- Source `_at_step_1_and_every_nth_step(period)` (training.py lines 810-814):
the returned closure is `(step_n == 1) or (step_n > 0 and (step_n % period == 0))`.
For the positive periods used by the Loop, Python `%` agrees with `Int.emod`. -/
def _at_step_1_and_every_nth_step (period : Int) : Int → Bool :=
  fun step_n => (step_n == 1) || (decide (0 < step_n) && (step_n % period == 0))

/-! ## File-system model and the checkpoint write protocol

`pickle_to_file` (training.py lines 824-835) performs exactly two file-system
effects: a `GFile` write of the serialized record to `file_path + '._tmp_'`,
then `tf.io.gfile.rename(tmp_file_path, file_path, overwrite=True)`.
Serialization (pickle + gzip) is modelled as the identity on the record:
the store is polymorphic in what it persists. -/

/-- The file system as seen through `tf.io.gfile`: a partial map from
path strings to fully written records. -/
def Fs (A : Type) : Type := String → Option A

/-- A primitive `tf.io.gfile` effect used by `pickle_to_file`. -/
inductive FsOp (A : Type) where
  | write (path : String) (obj : A)
  | rename (src : String) (dst : String)

/-- Apply one file-system effect.  `rename` is atomic and overwrites the
destination (`overwrite=True`), removing the source. -/
def applyOp (fs : Fs A) : FsOp A → Fs A
  | FsOp.write p obj => fun q => if q = p then some obj else fs q
  | FsOp.rename src dst =>
      fun q => if q = dst then fs src else if q = src then none else fs q

/-- Apply a sequence of file-system effects in order. -/
def applyOps (ops : List (FsOp A)) (fs : Fs A) : Fs A :=
  ops.foldl applyOp fs

/-- The effect sequence of `pickle_to_file(obj, file_path)`
(training.py lines 824-835): serialize to `file_path + '._tmp_'`, then
rename the temp file over `file_path`. -/
def pickle_to_file_ops (obj : A) (file_path : String) : List (FsOp A) :=
  [FsOp.write (file_path ++ "._tmp_") obj,
   FsOp.rename (file_path ++ "._tmp_") file_path]

/-- Source `pickle_to_file(obj, file_path)`: the file system after the complete
write-then-rename sequence. -/
def pickle_to_file (obj : A) (file_path : String) (fs : Fs A) : Fs A :=
  applyOps (pickle_to_file_ops obj file_path) fs

/-- Source `unpickle_from_file(file_path)` (training.py lines 838-846): reading a
path with no fully written file is an I/O error. -/
def unpickle_from_file (fs : Fs A) (file_path : String) : Except String A :=
  match fs file_path with
  | none => Except.error ("file not found: " ++ file_path)
  | some a => Except.ok a

/-- Source `os.path.join` as used by the checkpoint store (relative file names
joined under a directory). -/
def pathJoin (dir file : String) : String :=
  dir ++ "/" ++ file

/-! ## Layers, optimizers and tasks (`TrainTask`, `EvalTask`)

A trax layer is opaque to the orchestrator except for its `name` attribute
(used for loss/metric naming) and its callable behaviour, here an opaque
function on payloads. -/

/-- A trax layer as the orchestrator sees it: a `name` plus opaque behaviour. -/
structure Layer (V : Type) where
  name : String
  fn : V → V

/-- The optimizer's parameter dictionary; the orchestrator only ever reads
the `'learning_rate'` entry. -/
structure OptParams (V : Type) where
  learning_rate : V

/-- The slice of `optimizers.Optimizer` the training module touches:
`_init_opt_params` (fixed at optimizer construction), the live `opt_params`
(mutated by training updates), the `slots`, and `tree_init` (which builds
slots matching a weight tree). -/
structure Optimizer (V : Type) where
  init_opt_params : OptParams V
  opt_params : OptParams V
  slots : V
  tree_init : V → V

/-- Source `TrainTask` (training.py lines 679-734).  The labeled-data iterator is a
stream plus a cursor: `next()` reads the stream at the cursor and advances
it; the source is not restartable. -/
structure TrainTask (V : Type) where
  labeled_data : Nat → V
  cursor : Nat
  loss_layer : Layer V
  optimizer : Optimizer V
  lr_schedule : Option (Int → V)
  sample_batch : V
  n_steps_per_checkpoint : Int

/-- Source `TrainTask.__init__` (lines 682-702): stores the components and consumes
one element of `labeled_data` as the `sample_batch`. -/
def TrainTask.make (labeled_data : Nat → V) (loss_layer : Layer V)
    (optimizer : Optimizer V) (lr_schedule : Option (Int → V))
    (n_steps_per_checkpoint : Int) : TrainTask V :=
  { labeled_data := labeled_data, cursor := 1, loss_layer := loss_layer,
    optimizer := optimizer, lr_schedule := lr_schedule,
    sample_batch := labeled_data 0,
    n_steps_per_checkpoint := n_steps_per_checkpoint }

/-- Source `TrainTask.next_batch` (lines 712-714): `next(self._labeled_data)`. -/
def TrainTask.next_batch (t : TrainTask V) : V × TrainTask V :=
  (t.labeled_data t.cursor, { t with cursor := t.cursor + 1 })

/-- Source `TrainTask.learning_rate(step)` (lines 728-734): evaluate the schedule at
`step` if one was supplied (under a host-local NumPy backend context, which
does not change the value); otherwise read
`self._optimizer._init_opt_params['learning_rate']`. -/
def TrainTask.learning_rate (t : TrainTask V) (step : Int) : V :=
  match t.lr_schedule with
  | some sched => sched step
  | none => t.optimizer.init_opt_params.learning_rate

/-- Source `EvalTask` (training.py lines 737-801). -/
structure EvalTask (V : Type) where
  labeled_data : Nat → V
  cursor : Nat
  metrics : List (Layer V)
  metric_names : List String
  n_eval_batches : Nat
  sample_batch : V

/-- Source `EvalTask._default_names` (lines 794-795): one name per metric, taken
from the metric layer's own `name`. -/
def _default_names (metrics : List (Layer V)) : List String :=
  metrics.map Layer.name

/-- Source `EvalTask.__init__` (lines 746-768): `metric_names or _default_names()`
(so `None` and the empty list both fall back to the defaults), consume one
batch as `sample_batch`, then `_check_init_values` (lines 797-801) raises
when the metric and name counts differ. -/
def EvalTask.make (labeled_data : Nat → V) (metrics : List (Layer V))
    (metric_names : Option (List String)) (n_eval_batches : Nat) :
    Except String (EvalTask V) :=
  let names := match metric_names with
    | none => _default_names metrics
    | some ns => if ns.isEmpty then _default_names metrics else ns
  if metrics.length = names.length then
    Except.ok { labeled_data := labeled_data, cursor := 1, metrics := metrics,
                metric_names := names, n_eval_batches := n_eval_batches,
                sample_batch := labeled_data 0 }
  else
    Except.error "Number of metrics does not equal number of metric names."

/-- Source `EvalTask.next_batch` (lines 778-780). -/
def EvalTask.next_batch (t : EvalTask V) : V × EvalTask V :=
  (t.labeled_data t.cursor, { t with cursor := t.cursor + 1 })

/-! ## The deterministic PRNG stream

Modelled from the spec: the key generator (`trax.fastmath.random.split` /
`jax_random.get_prng`, external to this file) is required by the spec to be
a deterministic splittable stream — `split()` yields `(next_state,
usable_key)`, an identical seed reproduces an identical key sequence, and
no two keys produced in the life of one stream are ever equal.  We realise
the state as a path in an infinite binary tree: splitting descends to the
two children, so the key drawn at each call is the label of a tree node no
other call of the stream can ever reach. -/

/-- Modelled from the spec: `fastmath.random.split(state)` returns
`(next_state, usable_key)` — the two children of the state's tree node. -/
def rngSplit (s : List Bool) : List Bool × List Bool :=
  (s ++ [false], s ++ [true])

/-- Modelled from the spec: `jax_random.get_prng(seed)` builds the initial
stream state deterministically (and injectively) from the integer seed. -/
def get_prng (seed : Nat) : List Bool :=
  List.replicate seed true

/-- Source `_init_random_number_generators(seed)` (training.py lines 849-857):
when `seed` is `None`, an ambient nondeterministic value (Python's
time-seeded `random.randint`) takes its place, here supplied explicitly as
`entropy`; the resulting seed feeds `get_prng`. -/
def _init_random_number_generators (seed : Option Nat) (entropy : Nat) :
    List Bool :=
  get_prng (seed.getD entropy)

/-- The first `n` keys drawn from a stream state by repeated splitting. -/
def streamKeys (s : List Bool) : Nat → List (List Bool)
  | 0 => []
  | n + 1 =>
    let p := rngSplit s
    p.2 :: streamKeys p.1 n

/-! ## Compute topology (`init_host_and_devices`) -/

/-- The trax fastmath execution backends. -/
inductive Backend where
  | JAX
  | TF
  | NUMPY
deriving DecidableEq

/-- What the execution backend reports to `init_host_and_devices`:
the active backend, `jax.host_id()`, `jax.host_count()` and
`fastmath.device_count()`. -/
structure BackendInfo where
  backend : Backend
  host_id : Nat
  host_count : Nat
  device_count : Nat

/-- Source `init_host_and_devices(n_devices, random_seed)` (training.py lines
860-897).  Host id/count come from JAX only under the JAX backend; the
explicit `n_devices` is resolved by Python truthiness (`n_devices or
device_count`, so 0 counts as unset); a resolved count different from the
backend-reported count raises only under the JAX backend; a missing seed in
a multi-host run is derived from host id and system time (`entropy`). -/
def init_host_and_devices (info : BackendInfo) (entropy : Nat)
    (n_devices : Option Nat) (random_seed : Option Nat) :
    Except String (Bool × Nat × Nat × List Bool) :=
  let hid_hcount : Nat × Nat :=
    match info.backend with
    | Backend.JAX => (info.host_id, info.host_count)
    | _ => (0, 1)
  let host_id := hid_hcount.1
  let host_count := hid_hcount.2
  let is_chief := host_id == 0
  let device_count := info.device_count
  let nd := match n_devices with
    | none => device_count
    | some k => if k = 0 then device_count else k
  if nd ≠ device_count ∧ info.backend = Backend.JAX then
    Except.error "JAX cannot work yet with n_devices != all devices"
  else
    let seed : Option Nat := match random_seed with
      | some s => some s
      | none =>
          if host_count > 1 then some ((1000000 * (host_id + entropy)) % 2 ^ 32)
          else none
    Except.ok (is_chief, host_count, nd,
      _init_random_number_generators seed entropy)

/-! ## The checkpoint record and the Loop state -/

/-- The checkpoint record written by `Loop.save_checkpoint` (training.py
lines 563-570). -/
structure Checkpoint (V : Type) where
  step : Int
  flat_weights : V
  flat_state : V
  slots_per_task : List V
  input_signature : V
  version_timestamp : String

/-- The mutable state of a training `Loop` (training.py lines 61-637) at the
orchestration level: the step counter, the PRNG state, the canonical model
weights/state (kept unreplicated; `tl.flatten_weights_and_state` is the
identity at this level of abstraction), the eval model's weights/state, the
tasks (whose optimizers own the slots), the per-task eval tasks (`None`
entries are skipped), the output directory and the three scheduling
functions, plus the resolved topology. -/
structure Loop (V : Type) where
  step : Int
  rngState : List Bool
  weights : V
  modelState : V
  eval_weights : V
  eval_state : V
  tasks : List (TrainTask V)
  eval_tasks : List (Option (EvalTask V))
  output_dir : Option String
  batch_signature : V
  checkpoint_at : Int → Bool
  eval_at : Int → Bool
  task_at : Int → Nat
  is_chief : Bool
  n_hosts : Nat
  n_devices : Nat

/-- Source `Loop.new_rng` (lines 378-381): split the stream state, keep the first
half as the new state and hand out the second half. -/
def Loop.new_rng (l : Loop V) : Loop V × List Bool :=
  let p := rngSplit l.rngState
  ({ l with rngState := p.1 }, p.2)

/-- The keys produced by the first `n` calls of `Loop.new_rng`. -/
def Loop.loopKeys : Loop V → Nat → List (List Bool)
  | _, 0 => []
  | l, n + 1 =>
    let p := l.new_rng
    p.2 :: p.1.loopKeys n

/-- The restore loop of `load_checkpoint` (lines 594-595):
`for (task, slots) in zip(self._tasks, d['slots_per_task'])` assigns the
recorded slots task by task, truncating at the shorter list as `zip` does. -/
def assignSlotsToTasks : List (TrainTask V) → List V → List (TrainTask V)
  | [], _ => []
  | ts, [] => ts
  | t :: ts, s :: ss =>
      { t with optimizer := { t.optimizer with slots := s } }
        :: assignSlotsToTasks ts ss

/-- Source `directory or self._output_dir` (line 581) with Python truthiness:
`None` and the empty string both fall back to the Loop's output dir. -/
def resolveDir (directory : Option String) (output_dir : Option String) :
    Option String :=
  match directory with
  | none => output_dir
  | some d => if d = "" then output_dir else some d

/-- Source `filename or 'model.pkl.gz'` (line 586) with Python truthiness. -/
def resolveFilename (filename : Option String) : String :=
  match filename with
  | none => "model.pkl.gz"
  | some f => if f = "" then "model.pkl.gz" else f

/-- The path `load_checkpoint` resolves (lines 581-587), when any. -/
def Loop.ckpt_path (l : Loop V) (directory filename : Option String) :
    Option String :=
  match resolveDir directory l.output_dir with
  | none => none
  | some dir => some (pathJoin dir (resolveFilename filename))

/-- Source `Loop.load_checkpoint(directory, filename)` (training.py lines 574-599):
no directory resolves → log and return; resolved path does not exist
(`tf.io.gfile.exists`) → log and return; otherwise unpickle the record,
restore `step`, assign the recorded slots into the tasks, and restore model
weights/state via `init_from_file(path)` (external `tl.Layer` routine,
modelled as reading back the flattened weights/state recorded at the path),
finally pointing the eval model at the restored weights/state. -/
def Loop.load_checkpoint (l : Loop V) (fs : Fs (Checkpoint V))
    (directory filename : Option String) : Except String (Loop V) :=
  match l.ckpt_path directory filename with
  | none => Except.ok l
  | some path =>
    if (fs path).isNone then Except.ok l
    else
      match unpickle_from_file fs path with
      | Except.error e => Except.error e
      | Except.ok d =>
          Except.ok { l with
            step := d.step,
            tasks := assignSlotsToTasks l.tasks d.slots_per_task,
            weights := d.flat_weights,
            modelState := d.flat_state,
            eval_weights := d.flat_weights,
            eval_state := d.flat_state }

/-- Source `Loop.save_checkpoint` (training.py lines 551-572): a `None` output dir
logs and does nothing; otherwise the checkpoint record (current step, the
flattened weights/state, one slots entry per task, the input signature and
the format version stamp) is written to `<output_dir>/model.pkl.gz` with
`pickle_to_file`. -/
def Loop.save_checkpoint (l : Loop V) (fs : Fs (Checkpoint V)) :
    Fs (Checkpoint V) :=
  match l.output_dir with
  | none => fs
  | some dir =>
    let d : Checkpoint V :=
      { step := l.step,
        flat_weights := l.weights,
        flat_state := l.modelState,
        slots_per_task := l.tasks.map (fun t => t.optimizer.slots),
        input_signature := l.batch_signature,
        version_timestamp := "Aug-05-2020" }
    pickle_to_file d (pathJoin dir "model.pkl.gz") fs

/-! ## Loop construction (`Loop.__init__`, training.py lines 92-259)

The numerical model is an external collaborator: its `init` routine is an
opaque function from a fresh PRNG key and the batch signature to initial
weights and state (one such function for the training model, one for the
eval model).  The multi-host weight synchronization (lines 182-184,
`_make_weights_and_state_same_across_hosts`) is an external collective that
averages identical replicas; on the state visible here it leaves the
host-local weights as produced (its cross-host effect is not observable in
a single-host embedding).  Logging, summary writers and `gin` snapshots
have no effect on orchestrator state and are not modelled. -/

/-- Source `Loop.__init__`.  Python failure modes are `Except.error`:
the empty-task assertion (line 140), the multitask-without-`task_at`
assertion (line 162) and the device-count check raised inside
`init_host_and_devices` (lines 890-892).  Optional `checkpoint_at` /
`eval_at` / `task_at` resolve exactly as in the source: when `eval_tasks`
is `None`, `eval_at` is overwritten with `_never` (lines 141-143) before
the `eval_at or default_at` resolution (line 214); construction ends by
attempting `load_checkpoint()` (line 203). -/
def Loop.make (info : BackendInfo) (entropy : Nat)
    (model_init eval_model_init : List Bool → V → V × V)
    (tasks : List (TrainTask V))
    (eval_tasks : Option (List (Option (EvalTask V))))
    (output_dir : Option String)
    (checkpoint_at : Option (Int → Bool))
    (eval_at : Option (Int → Bool))
    (task_at : Option (Int → Nat))
    (n_devices : Option Nat)
    (random_seed : Option Nat)
    (fs : Fs (Checkpoint V)) : Except String (Loop V) :=
  match init_host_and_devices info entropy n_devices random_seed with
  | Except.error e => Except.error e
  | Except.ok (is_chief, n_hosts, nd, rng0) =>
    match tasks with
    | [] => Except.error "Must provide at least one task to interleave."
    | t0 :: rest =>
      let pair : List (Option (EvalTask V)) × Option (Int → Bool) :=
        match eval_tasks with
        | none => ((t0 :: rest).map (fun _ => none), some _never)
        | some ets => (ets, eval_at)
      let eval_tasksR := pair.1
      let eval_atR := pair.2
      let default_at := _at_step_1_and_every_nth_step t0.n_steps_per_checkpoint
      let checkpoint_atR := match checkpoint_at with
        | none => default_at
        | some f => f
      let batch_signature := t0.sample_batch
      let split1 := rngSplit rng0
      let ws := model_init split1.2 batch_signature
      let split2 := rngSplit split1.1
      let ews := eval_model_init split2.2 batch_signature
      let finish : (Int → Nat) → Except String (Loop V) := fun task_atR =>
        let tasksI := (t0 :: rest).map (fun t =>
          { t with optimizer :=
              { t.optimizer with slots := t.optimizer.tree_init ws.1 } })
        let l0 : Loop V :=
          { step := 0,
            rngState := split2.1,
            weights := ws.1,
            modelState := ws.2,
            eval_weights := ews.1,
            eval_state := ews.2,
            tasks := tasksI,
            eval_tasks := eval_tasksR,
            output_dir := output_dir,
            batch_signature := batch_signature,
            checkpoint_at := checkpoint_atR,
            eval_at := (match eval_atR with
              | none => default_at
              | some f => f),
            task_at := task_atR,
            is_chief := is_chief,
            n_hosts := n_hosts,
            n_devices := nd }
        l0.load_checkpoint fs none none
      match task_at with
      | none =>
          if (t0 :: rest).length = 1 then finish (fun _ => 0)
          else Except.error "Must provide task_at for multitask training."
      | some ta => finish ta

/-! ## The step loop (`Loop.run`, training.py lines 291-351)

The jitted per-task `optimizers.Trainer` is an external collaborator: its
`one_step(batch, rng, step, learning_rate)` mutates the shared weights,
model state and the active task's optimizer slots; its numeric outputs
(loss and optimizer statistics) feed only the logging accumulators, which
are host-local floats with no effect on control flow and are abstracted to
the `step_acc` counter the log line reports. -/

/-- The external jitted trainer for one task: from batch, PRNG key, step and
learning rate, map (weights, model state, slots) to their successors. -/
structure Trainer (V : Type) where
  one_step : V → List Bool → Int → V → V × V × V → V × V × V

/-- Observable actions of one `run` invocation, in program order: a training
step was executed (the body of the `for` loop), a checkpoint was saved
(`checkpoint_at` fired), the eval/logging branch ran (`eval_at` fired). -/
inductive RunEvent where
  | stepped (step : Int)
  | checkpointed (step : Int)
  | evaled (step : Int)

/-- The state threaded through `run`: the Loop object, the file system the
checkpoint store writes to, the `step_acc` accumulator (reset at each eval
point, line 341) and the trace of observable actions. -/
structure RunState (V : Type) where
  loop : Loop V
  fs : Fs (Checkpoint V)
  step_acc : Nat
  events : List RunEvent

/-- Number of executed training steps recorded in a trace. -/
def countStepped (es : List RunEvent) : Nat :=
  (es.filter fun e => match e with
    | RunEvent.stepped _ => true
    | _ => false).length

/-- Number of eval/logging-branch activations recorded in a trace. -/
def countEvaled (es : List RunEvent) : Nat :=
  (es.filter fun e => match e with
    | RunEvent.evaled _ => true
    | _ => false).length

/-- Source `Loop._run_one_step(task_index)` (lines 399-417): read the learning rate
at the current step, pull the next batch of the active task, draw a fresh
PRNG key, and let the task's accelerated trainer produce the new weights,
model state and slots (weight/state re-replication between tasks, lines
415-416, is invisible at the unreplicated level).  A task index outside the
task list is Python's `IndexError`. -/
def Loop.run_one_step (trainer : Trainer V) (l : Loop V) (task_index : Nat) :
    Except String (Loop V) :=
  match l.tasks.get? task_index with
  | none => Except.error "IndexError: task index out of range"
  | some task =>
    let learning_rate := task.learning_rate l.step
    let bt := task.next_batch
    let p := l.new_rng
    let l1 := p.1
    let out := trainer.one_step bt.1 p.2 l1.step learning_rate
      (l1.weights, l1.modelState, bt.2.optimizer.slots)
    Except.ok { l1 with
      weights := out.1,
      modelState := out.2.1,
      tasks := l1.tasks.set task_index
        { bt.2 with optimizer := { bt.2.optimizer with slots := out.2.2 } } }

/-- The inner loop of `run_evals` for one eval task (lines 514-519): for each
of `n_eval_batches` batches, draw a fresh PRNG key and pull the next eval
batch (the metric values feed only the logged averages). -/
def Loop.runEvalBatches (l : Loop V) (et : EvalTask V) :
    Nat → Loop V × EvalTask V
  | 0 => (l, et)
  | n + 1 =>
    let p := l.new_rng
    let bt := et.next_batch
    Loop.runEvalBatches p.1 bt.2 n

/-- The per-task loop of `run_evals` (lines 485-522): tasks whose eval task
is `None` are skipped with no effect. -/
def Loop.runEvalsAux (l : Loop V) (i : Nat) : Nat → Loop V
  | 0 => l
  | r + 1 =>
    let l' := match l.eval_tasks.get? i with
      | none => l
      | some none => l
      | some (some et) =>
        let pr := l.runEvalBatches et et.n_eval_batches
        { pr.1 with eval_tasks := pr.1.eval_tasks.set i (some pr.2) }
    Loop.runEvalsAux l' (i + 1) r

/-- Source `Loop.run_evals` (training.py lines 473-522): copy the training weights
and state into the eval model, then measure every present eval task. -/
def Loop.run_evals (l : Loop V) : Loop V :=
  let l1 := { l with eval_weights := l.weights, eval_state := l.modelState }
  Loop.runEvalsAux l1 0 l1.eval_tasks.length

/-- One iteration of the `for` loop in `run` (lines 305-343): increment the
step counter, resolve the active task, run one training step, bump the
logging accumulator; then save a checkpoint if `checkpoint_at` fires, and
if `eval_at` fires sync the eval model's weights, log, run the evals and
reset the accumulators. -/
def Loop.runOneIteration (trainer : Trainer V) (s : RunState V) :
    Except String (RunState V) :=
  let l0 := { s.loop with step := s.loop.step + 1 }
  let task_index := l0.task_at l0.step
  match Loop.run_one_step trainer l0 task_index with
  | Except.error e => Except.error e
  | Except.ok l1 =>
    let step_acc := s.step_acc + 1
    let events := s.events ++ [RunEvent.stepped l1.step]
    let fs := if l1.checkpoint_at l1.step then l1.save_checkpoint s.fs else s.fs
    let events := if l1.checkpoint_at l1.step
      then events ++ [RunEvent.checkpointed l1.step] else events
    if l1.eval_at l1.step then
      let l2 := { l1 with eval_weights := l1.weights }
      let l3 := l2.run_evals
      Except.ok { loop := l3, fs := fs, step_acc := 0,
                  events := events ++ [RunEvent.evaled l1.step] }
    else
      Except.ok { loop := l1, fs := fs, step_acc := step_acc, events := events }

/-- The `for _ in range(n_steps)` loop of `run`. -/
def Loop.runLoop (trainer : Trainer V) : Nat → RunState V →
    Except String (RunState V)
  | 0, s => Except.ok s
  | n + 1, s =>
    match Loop.runOneIteration trainer s with
    | Except.error e => Except.error e
    | Except.ok s' => Loop.runLoop trainer n s'

/-- Source `Loop.run(n_steps)` (training.py lines 291-351): run the loop body
`n_steps` times (summary writers are scoped logging resources with no
orchestrator-state effect), then store the final weights back into the eval
model (line 351). -/
def Loop.run (trainer : Trainer V) (n_steps : Nat) (l : Loop V)
    (fs : Fs (Checkpoint V)) : Except String (RunState V) :=
  match Loop.runLoop trainer n_steps
      { loop := l, fs := fs, step_acc := 0, events := [] } with
  | Except.error e => Except.error e
  | Except.ok s =>
      Except.ok { s with loop := { s.loop with eval_weights := s.loop.weights } }

/-! ## Concrete fixtures used by the evaluation witnesses -/

/-- A concrete metric/loss layer over `Nat` payloads. -/
def witLayer : Layer Nat := { name := "m", fn := fun x => x }

/-- A concrete optimizer over `Nat` payloads. -/
def witOptimizer : Optimizer Nat :=
  { init_opt_params := { learning_rate := 1 },
    opt_params := { learning_rate := 1 },
    slots := 5,
    tree_init := fun w => w }

/-- A concrete schedule-free training task. -/
def witTask : TrainTask Nat :=
  TrainTask.make (fun i => i) witLayer witOptimizer none 100

/-- A concrete single-task Loop with an output directory. -/
def witLoop : Loop Nat :=
  { step := 7, rngState := [], weights := 3, modelState := 4,
    eval_weights := 3, eval_state := 4,
    tasks := [witTask], eval_tasks := [none],
    output_dir := some "out", batch_signature := 0,
    checkpoint_at := _at_step_1_and_every_nth_step 2,
    eval_at := fun _ => false,
    task_at := fun _ => 0,
    is_chief := true, n_hosts := 1, n_devices := 1 }

/-- The empty checkpoint store. -/
def emptyFs : Fs (Checkpoint Nat) := fun _ => none

/-- Source `witLoop` seeded with explicit seed 2 under ambient entropy 5. -/
def witLoopSeedA : Loop Nat :=
  { witLoop with rngState := _init_random_number_generators (some 2) 5 }

/-- Source `witLoop` seeded with explicit seed 2 under ambient entropy 9. -/
def witLoopSeedB : Loop Nat :=
  { witLoop with rngState := _init_random_number_generators (some 2) 9 }

/-- The Loop state after saving `witLoop` and loading it back. -/
def witRestored : Loop Nat :=
  (Except.toOption
    (witLoop.load_checkpoint (witLoop.save_checkpoint emptyFs) (some "out")
      none)).getD witLoop

/-- A concrete external trainer over `Nat` payloads. -/
def witTrainer : Trainer Nat :=
  { one_step := fun batch _rng _step lr wss =>
      (wss.1 + batch + lr, wss.2.1, wss.2.2 + 1) }

/-- The state produced by running `witLoop` for three steps. -/
def witRun3 : RunState Nat :=
  (Except.toOption (Loop.run witTrainer 3 witLoop emptyFs)).getD
    { loop := witLoop, fs := emptyFs, step_acc := 0, events := [] }

/-- A TensorFlow-backend topology reporting one device. -/
def witTFInfo : BackendInfo :=
  { backend := Backend.TF, host_id := 0, host_count := 1, device_count := 1 }

/-- A JAX-backend topology reporting four devices. -/
def witJAXInfo : BackendInfo :=
  { backend := Backend.JAX, host_id := 0, host_count := 1, device_count := 4 }

/-- A concrete model initializer over `Nat` payloads. -/
def witModelInit : List Bool → Nat → Nat × Nat := fun _ v => (v, v)

/-- The Loop constructed with `eval_tasks = None` and a caller-supplied
always-true `eval_at`. -/
def witLoopC10 : Loop Nat :=
  (Except.toOption (Loop.make witTFInfo 0 witModelInit witModelInit [witTask]
    none none none (some (fun _ => true)) none none (some 1) emptyFs)).getD
    witLoop

/-- The state produced by running `witLoopC10` for two steps. -/
def witRunC10 : RunState Nat :=
  (Except.toOption (Loop.run witTrainer 2 witLoopC10 emptyFs)).getD
    { loop := witLoopC10, fs := emptyFs, step_acc := 0, events := [] }

/-! ## Helper lemmas -/

/-- The temp path is never equal to the destination path. -/
theorem tmp_path_ne (file_path : String) : file_path ≠ file_path ++ "._tmp_" := by
  intro h
  have hlen := congrArg String.length h
  rw [String.length_append] at hlen
  have h6 : ("._tmp_" : String).length = 6 := rfl
  omega

/-- After a completed `pickle_to_file`, the destination holds the record. -/
theorem pickle_to_file_self (obj : A) (file_path : String) (fs : Fs A) :
    pickle_to_file obj file_path fs file_path = some obj := by
  simp [pickle_to_file, applyOps, pickle_to_file_ops, applyOp]

/-- A crashed `pickle_to_file` (any strict prefix of its effect sequence,
i.e. any crash before the rename) leaves the destination path untouched. -/
theorem pickle_to_file_crash (obj : A) (file_path : String) (fs : Fs A)
    (k : Nat) (hk : k < (pickle_to_file_ops obj file_path).length) :
    applyOps ((pickle_to_file_ops obj file_path).take k) fs file_path
      = fs file_path := by
  have hne := tmp_path_ne file_path
  simp [pickle_to_file_ops] at hk
  interval_cases k
  · rfl
  · simp [pickle_to_file_ops, applyOps, applyOp, hne]

/-- Assigning a same-length slots list into a task list installs exactly
that slots list. -/
theorem assignSlotsToTasks_map (ts : List (TrainTask V)) (ss : List V)
    (h : ts.length = ss.length) :
    (assignSlotsToTasks ts ss).map (fun t => t.optimizer.slots) = ss := by
  induction ts generalizing ss with
  | nil =>
    cases ss with
    | nil => rfl
    | cons s ss' => simp at h
  | cons t ts' ih =>
    cases ss with
    | nil => simp at h
    | cons s ss' =>
      simp only [assignSlotsToTasks, List.map_cons]
      simp only [List.length_cons, Nat.succ.injEq] at h
      rw [ih ss' h]

/-! ### C2 -/

/-- C2 counterexample: at period 2 and step 0 the default predicate returns
`false` although `0 % 2 == 0`, so "true iff `k == 1 or k % p == 0`" fails
for the integer `k = 0`. -/
theorem claim_C2_counterexample :
    ¬ ((_at_step_1_and_every_nth_step 2 0 = true) ↔
        ((0 : Int) = 1 ∨ (0 : Int) % 2 = 0)) := by
  decide

/-- C2 (amended): for every positive period `p`, the default checkpoint/eval
predicate built from `p` is true at step `k` iff `k == 1` or
(`k > 0` and `k % p == 0`). -/
theorem claim_C2 (p k : Int) (_hp : 0 < p) :
    _at_step_1_and_every_nth_step p k = true ↔
      (k = 1 ∨ (0 < k ∧ k % p = 0)) := by
  simp [_at_step_1_and_every_nth_step]

/-- C2 witness: the amended predicate contract, evaluated at period 3, step 6. -/
theorem claim_C2_witness :
    (0 : Int) < 3 ∧
      (_at_step_1_and_every_nth_step 3 6 = true ↔
        ((6 : Int) = 1 ∨ (0 < (6 : Int) ∧ (6 : Int) % 3 = 0))) :=
  ⟨by decide, claim_C2 3 6 (by decide)⟩

/-! ### C4 -/

/-- C4: every checkpoint save first serializes the full record to a temporary
path at the destination and then atomically renames it over the destination:
a crash at any point strictly before the final rename (any strict prefix of
the effect sequence) leaves the previously-valid checkpoint at `file_path`,
if any, unchanged, while the completed sequence installs the new record. -/
theorem claim_C4 (A : Type) (obj : A) (file_path : String) (fs : Fs A)
    (k : Nat) (hk : k < (pickle_to_file_ops obj file_path).length) :
    (applyOps ((pickle_to_file_ops obj file_path).take k) fs file_path
        = fs file_path) ∧
      pickle_to_file obj file_path fs file_path = some obj :=
  ⟨pickle_to_file_crash obj file_path fs k hk,
   pickle_to_file_self obj file_path fs⟩

/-- C4 witness: crash after writing the temp file (prefix of length 1) leaves
an initially empty store empty at the destination path; the completed save
installs the record. -/
theorem claim_C4_witness :
    (applyOps ((pickle_to_file_ops 7 "dir/model.pkl.gz").take 1)
        (fun _ => (none : Option Nat)) "dir/model.pkl.gz" = none) ∧
      pickle_to_file 7 "dir/model.pkl.gz" (fun _ => (none : Option Nat))
        "dir/model.pkl.gz" = some 7 :=
  claim_C4 Nat 7 "dir/model.pkl.gz" (fun _ => none) 1 (by decide)

/-! ### C7 -/

/-- C7 counterexample: one metric function and an explicitly supplied empty
metric-name list (counts 1 and 0 differ) does not fail — Python's
`metric_names or self._default_names()` treats the empty list as unsupplied
and silently falls back to default names. -/
theorem claim_C7_counterexample :
    ((EvalTask.make (fun _ => (0 : Nat)) [{ name := "m", fn := fun x => x }]
        (some []) 1).isOk = true) ∧
      ([{ name := "m", fn := fun (x : Nat) => x }] : List (Layer Nat)).length ≠
        ([] : List String).length := by
  exact ⟨rfl, by decide⟩

/-- C7 (amended): constructing an `EvalTask` with a supplied *non-empty*
metric-name list whose length differs from the metric-function count fails
by raising; a `None` (or empty, which Python truthiness treats as unsupplied)
name list is replaced by one default name per metric function derived from
that function's own identifier, so default-named construction never fails
this check. -/
theorem claim_C7 (labeled_data : Nat → V) (metrics : List (Layer V))
    (ns : List String) (n : Nat) (hne : ns ≠ [])
    (hlen : metrics.length ≠ ns.length) :
    ((EvalTask.make labeled_data metrics (some ns) n).isOk = false) ∧
      ((EvalTask.make labeled_data metrics none n).isOk = true) ∧
      (∀ et, EvalTask.make labeled_data metrics none n = Except.ok et →
        et.metric_names = _default_names metrics) := by
  refine ⟨?_, ?_, ?_⟩
  · simp [EvalTask.make, List.isEmpty_iff, hne, hlen, Except.isOk, Except.toBool]
  · simp [EvalTask.make, _default_names, Except.isOk, Except.toBool]
  · intro et het
    simp [EvalTask.make, _default_names] at het
    subst het
    simp [_default_names]

/-- C7 witness: three metric functions with two supplied names fail; the same
metrics with no supplied names construct with the three default names. -/
theorem claim_C7_witness :
    (([("a" : String), "b"] ≠ ([] : List String)) ∧
      ([{ name := "m1", fn := fun (x : Nat) => x },
        { name := "m2", fn := fun x => x },
        { name := "m3", fn := fun x => x }] : List (Layer Nat)).length ≠
        (["a", "b"] : List String).length) ∧
    ((EvalTask.make (fun _ => (0 : Nat))
        [{ name := "m1", fn := fun x => x }, { name := "m2", fn := fun x => x },
         { name := "m3", fn := fun x => x }] (some ["a", "b"]) 1).isOk = false) :=
  ⟨⟨by decide, by decide⟩,
    (claim_C7 (fun _ => (0 : Nat))
      [{ name := "m1", fn := fun x => x }, { name := "m2", fn := fun x => x },
       { name := "m3", fn := fun x => x }] ["a", "b"] 1 (by decide)
      (by decide)).1⟩

/-! ### C8 -/

/-- C8: `learning_rate(s)` returns the supplied schedule evaluated at `s`
when one was given; otherwise it returns the learning rate recorded in the
optimizer's initial configuration (`_init_opt_params`, fixed when the
optimizer was built, i.e. no later than the task's construction), and in
either case the result is unaffected by any mutation of the optimizer's
live parameters (`opt_params`), in particular of its live learning rate. -/
theorem claim_C8 (t : TrainTask V) (s : Int) :
    (∀ f, t.lr_schedule = some f → t.learning_rate s = f s) ∧
      (t.lr_schedule = none →
        t.learning_rate s = t.optimizer.init_opt_params.learning_rate) ∧
      (∀ p : OptParams V,
        TrainTask.learning_rate
          { t with optimizer := { t.optimizer with opt_params := p } } s
          = t.learning_rate s) := by
  refine ⟨?_, ?_, ?_⟩
  · intro f hf
    simp [TrainTask.learning_rate, hf]
  · intro h
    simp [TrainTask.learning_rate, h]
  · intro p
    cases h : t.lr_schedule <;> simp [TrainTask.learning_rate, h]

/-- C8 witness: a task with the doubling schedule returns the schedule value;
a schedule-free task returns the initial learning rate even after the live
rate is overwritten. -/
theorem claim_C8_witness :
    ((TrainTask.make (fun _ => (0 : Int)) { name := "L2Loss", fn := fun x => x }
        { init_opt_params := { learning_rate := 10 },
          opt_params := { learning_rate := 10 },
          slots := 0, tree_init := fun w => w }
        (some (fun s => 2 * s)) 100).learning_rate 7 = (fun (s : Int) => 2 * s) 7) ∧
    (TrainTask.learning_rate
        { (TrainTask.make (fun _ => (0 : Int)) { name := "L2Loss", fn := fun x => x }
            { init_opt_params := { learning_rate := 10 },
              opt_params := { learning_rate := 10 },
              slots := 0, tree_init := fun w => w } none 100) with
          optimizer :=
            { (TrainTask.make (fun _ => (0 : Int)) { name := "L2Loss", fn := fun x => x }
                { init_opt_params := { learning_rate := 10 },
                  opt_params := { learning_rate := 10 },
                  slots := 0, tree_init := fun w => w } none 100).optimizer with
              opt_params := { learning_rate := 999 } } } 7
      = (TrainTask.make (fun _ => (0 : Int)) { name := "L2Loss", fn := fun x => x }
          { init_opt_params := { learning_rate := 10 },
            opt_params := { learning_rate := 10 },
            slots := 0, tree_init := fun w => w } none 100).learning_rate 7) :=
  ⟨(claim_C8 (TrainTask.make (fun _ => (0 : Int)) { name := "L2Loss", fn := fun x => x }
      { init_opt_params := { learning_rate := 10 },
        opt_params := { learning_rate := 10 },
        slots := 0, tree_init := fun w => w }
      (some (fun s => 2 * s)) 100) 7).1 (fun s => 2 * s) rfl,
   (claim_C8 (TrainTask.make (fun _ => (0 : Int)) { name := "L2Loss", fn := fun x => x }
      { init_opt_params := { learning_rate := 10 },
        opt_params := { learning_rate := 10 },
        slots := 0, tree_init := fun w => w } none 100) 7).2.2
     { learning_rate := 999 }⟩

/-! ### C9 -/

/-- The keys a Loop hands out depend only on its PRNG stream state. -/
theorem loopKeys_eq_streamKeys (l : Loop V) (n : Nat) :
    l.loopKeys n = streamKeys l.rngState n := by
  induction n generalizing l with
  | zero => rfl
  | succ m ih =>
    simp only [Loop.loopKeys, streamKeys, Loop.new_rng, rngSplit]
    rw [ih]

/-- Every key drawn from a stream state is strictly longer than the state:
it labels a proper descendant in the split tree. -/
theorem streamKeys_mem_length (n : Nat) (s k : List Bool)
    (hk : k ∈ streamKeys s n) : s.length < k.length := by
  induction n generalizing s with
  | zero => simp [streamKeys] at hk
  | succ m ih =>
    simp only [streamKeys, rngSplit, List.mem_cons] at hk
    cases hk with
    | inl h => subst h; simp
    | inr h =>
      have := ih (s ++ [false]) h
      simp at this
      omega

/-- No two of the keys drawn from one stream state are equal. -/
theorem streamKeys_nodup (n : Nat) (s : List Bool) :
    (streamKeys s n).Nodup := by
  induction n generalizing s with
  | zero => simp [streamKeys]
  | succ m ih =>
    simp only [streamKeys, rngSplit, List.nodup_cons]
    refine ⟨?_, ih (s ++ [false])⟩
    intro hmem
    have hlen := streamKeys_mem_length m (s ++ [false]) (s ++ [true]) hmem
    simp at hlen

/-- C9: two Loops whose PRNG streams were initialized from the same explicit
seed — whatever the ambient entropy of either process — hand out identical
sequences of the first `N` keys, and within one stream no two of the first
`N` keys are equal.  (The key generator itself lives in `trax.fastmath` /
`jax.random`, outside this module; it is modelled from the spec as a
deterministic splittable stream, see `rngSplit`.) -/
theorem claim_C9 (V : Type) (seed e1 e2 N : Nat) (l1 l2 : Loop V)
    (h1 : l1.rngState = _init_random_number_generators (some seed) e1)
    (h2 : l2.rngState = _init_random_number_generators (some seed) e2) :
    l1.loopKeys N = l2.loopKeys N ∧ (l1.loopKeys N).Nodup := by
  have hs : l1.rngState = l2.rngState := by
    rw [h1, h2]
    rfl
  constructor
  · rw [loopKeys_eq_streamKeys, loopKeys_eq_streamKeys, hs]
  · rw [loopKeys_eq_streamKeys]
    exact streamKeys_nodup N l1.rngState

/-- C9 witness: two Loops seeded identically (seed 2) under different ambient
entropy values produce the same first four keys, which are pairwise distinct. -/
theorem claim_C9_witness :
    witLoopSeedA.loopKeys 4 = witLoopSeedB.loopKeys 4 ∧
      (witLoopSeedA.loopKeys 4).Nodup :=
  claim_C9 Nat 2 5 9 4 witLoopSeedA witLoopSeedB rfl rfl

/-! ### C5 -/

/-- C5: `load_checkpoint` when no checkpoint file exists at the resolved path
(or when no path resolves at all) returns successfully — it never raises —
and the Loop is returned exactly as it was: step, model weights/state, eval
weights/state and every task's optimizer slots are unchanged. -/
theorem claim_C5 (l : Loop V) (fs : Fs (Checkpoint V))
    (directory filename : Option String)
    (habsent : ∀ p, l.ckpt_path directory filename = some p → fs p = none) :
    l.load_checkpoint fs directory filename = Except.ok l := by
  unfold Loop.load_checkpoint
  cases hp : l.ckpt_path directory filename with
  | none => rfl
  | some path =>
    have hnone := habsent path hp
    simp [hnone]

/-- C5 witness: loading `witLoop` from the empty store is the identity. -/
theorem claim_C5_witness :
    Loop.load_checkpoint witLoop emptyFs none none = Except.ok witLoop :=
  claim_C5 witLoop emptyFs none none (fun _ _ => rfl)

/-! ### C3 -/

/-- C3: a checkpoint saved by `save_checkpoint` and then loaded from the same
path by `load_checkpoint` (on any Loop with the same number of tasks, in
particular the same Loop) restores the orchestrator's step and every task's
optimizer slots to exactly the values they had at save time. -/
theorem claim_C3 (l l2 : Loop V) (fs : Fs (Checkpoint V)) (dir : String)
    (hdir : l.output_dir = some dir) (hdir' : dir ≠ "")
    (hlen : l2.tasks.length = l.tasks.length) :
    ((l2.load_checkpoint (l.save_checkpoint fs) (some dir) none).isOk = true) ∧
      ∀ l2', l2.load_checkpoint (l.save_checkpoint fs) (some dir) none
          = Except.ok l2' →
        l2'.step = l.step ∧
          l2'.tasks.map (fun t => t.optimizer.slots)
            = l.tasks.map (fun t => t.optimizer.slots) := by
  have hsave : l.save_checkpoint fs = pickle_to_file
      { step := l.step, flat_weights := l.weights, flat_state := l.modelState,
        slots_per_task := l.tasks.map (fun t => t.optimizer.slots),
        input_signature := l.batch_signature,
        version_timestamp := "Aug-05-2020" }
      (pathJoin dir "model.pkl.gz") fs := by
    simp [Loop.save_checkpoint, hdir]
  have hpath : Loop.ckpt_path l2 (some dir) none
      = some (pathJoin dir "model.pkl.gz") := by
    simp [Loop.ckpt_path, resolveDir, resolveFilename, hdir']
  have hfind : (l.save_checkpoint fs) (pathJoin dir "model.pkl.gz")
      = some { step := l.step, flat_weights := l.weights,
               flat_state := l.modelState,
               slots_per_task := l.tasks.map (fun t => t.optimizer.slots),
               input_signature := l.batch_signature,
               version_timestamp := "Aug-05-2020" } := by
    rw [hsave]
    exact pickle_to_file_self _ _ _
  have hload : l2.load_checkpoint (l.save_checkpoint fs) (some dir) none
      = Except.ok { l2 with
          step := l.step,
          tasks := assignSlotsToTasks l2.tasks
            (l.tasks.map (fun t => t.optimizer.slots)),
          weights := l.weights,
          modelState := l.modelState,
          eval_weights := l.weights,
          eval_state := l.modelState } := by
    unfold Loop.load_checkpoint
    rw [hpath]
    simp [hfind, unpickle_from_file]
  refine ⟨by simp [hload, Except.isOk, Except.toBool], ?_⟩
  intro l2' hl2'
  rw [hload] at hl2'
  cases hl2'
  refine ⟨rfl, ?_⟩
  exact assignSlotsToTasks_map l2.tasks _ (by simp [hlen])

/-- C3 witness: saving `witLoop` (step 7, slots 5) into the empty store and
loading it back restores step 7 and the slots list. -/
theorem claim_C3_witness :
    witRestored.step = witLoop.step ∧
      witRestored.tasks.map (fun t => t.optimizer.slots)
        = witLoop.tasks.map (fun t => t.optimizer.slots) :=
  (claim_C3 witLoop witLoop emptyFs "out" rfl (by decide) rfl).2 witRestored rfl

/-! ### Trace-counting helpers and step-loop lemmas -/

/-- Source `countStepped` distributes over trace concatenation. -/
theorem countStepped_append (es fs : List RunEvent) :
    countStepped (es ++ fs) = countStepped es + countStepped fs := by
  simp [countStepped, List.filter_append]

/-- Source `countEvaled` distributes over trace concatenation. -/
theorem countEvaled_append (es fs : List RunEvent) :
    countEvaled (es ++ fs) = countEvaled es + countEvaled fs := by
  simp [countEvaled, List.filter_append]

/-- A successful `_run_one_step` leaves the step counter, the task count and
all scheduling functions unchanged. -/
theorem run_one_step_spec (trainer : Trainer V) (l : Loop V) (ti : Nat)
    (l' : Loop V) (h : Loop.run_one_step trainer l ti = Except.ok l') :
    l'.step = l.step ∧ l'.tasks.length = l.tasks.length ∧
      l'.task_at = l.task_at ∧ l'.eval_at = l.eval_at ∧
      l'.checkpoint_at = l.checkpoint_at := by
  unfold Loop.run_one_step at h
  cases hg : l.tasks.get? ti with
  | none => rw [hg] at h; cases h
  | some t =>
    rw [hg] at h
    cases h
    refine ⟨rfl, ?_, rfl, rfl, rfl⟩
    simp [Loop.new_rng]

/-- Source `_run_one_step` succeeds whenever the task index is in range. -/
theorem run_one_step_isOk (trainer : Trainer V) (l : Loop V) (ti : Nat)
    (h : ti < l.tasks.length) :
    (Loop.run_one_step trainer l ti).isOk = true := by
  unfold Loop.run_one_step
  rw [List.get?_eq_get h]
  rfl

/-- Source `run_evals` leaves the step counter, the tasks and all scheduling
functions unchanged (it only advances the PRNG stream, the eval cursors and
the eval model's weights/state). -/
theorem runEvalBatches_frame (n : Nat) (l : Loop V) (et : EvalTask V) :
    (Loop.runEvalBatches l et n).1.step = l.step ∧
      (Loop.runEvalBatches l et n).1.tasks = l.tasks ∧
      (Loop.runEvalBatches l et n).1.task_at = l.task_at ∧
      (Loop.runEvalBatches l et n).1.eval_at = l.eval_at ∧
      (Loop.runEvalBatches l et n).1.checkpoint_at = l.checkpoint_at := by
  induction n generalizing l et with
  | zero => exact ⟨rfl, rfl, rfl, rfl, rfl⟩
  | succ m ih =>
    simp only [Loop.runEvalBatches, Loop.new_rng]
    exact ih _ _

/-- The per-task eval loop preserves the same frame. -/
theorem runEvalsAux_frame (r i : Nat) (l : Loop V) :
    (Loop.runEvalsAux l i r).step = l.step ∧
      (Loop.runEvalsAux l i r).tasks = l.tasks ∧
      (Loop.runEvalsAux l i r).task_at = l.task_at ∧
      (Loop.runEvalsAux l i r).eval_at = l.eval_at ∧
      (Loop.runEvalsAux l i r).checkpoint_at = l.checkpoint_at := by
  induction r generalizing i l with
  | zero => exact ⟨rfl, rfl, rfl, rfl, rfl⟩
  | succ m ih =>
    simp only [Loop.runEvalsAux]
    cases hg : l.eval_tasks.get? i with
    | none => exact ih (i + 1) l
    | some o =>
      cases o with
      | none => exact ih (i + 1) l
      | some et =>
        obtain ⟨hb1, hb2, hb3, hb4, hb5⟩ :=
          runEvalBatches_frame et.n_eval_batches l et
        obtain ⟨hi1, hi2, hi3, hi4, hi5⟩ := ih (i + 1)
          { (Loop.runEvalBatches l et et.n_eval_batches).1 with
            eval_tasks :=
              (Loop.runEvalBatches l et et.n_eval_batches).1.eval_tasks.set i
                (some (Loop.runEvalBatches l et et.n_eval_batches).2) }
        exact ⟨hi1.trans hb1, hi2.trans hb2, hi3.trans hb3,
               hi4.trans hb4, hi5.trans hb5⟩

/-- Source `run_evals` preserves the same frame. -/
theorem run_evals_frame (l : Loop V) :
    (Loop.run_evals l).step = l.step ∧
      (Loop.run_evals l).tasks = l.tasks ∧
      (Loop.run_evals l).task_at = l.task_at ∧
      (Loop.run_evals l).eval_at = l.eval_at ∧
      (Loop.run_evals l).checkpoint_at = l.checkpoint_at := by
  unfold Loop.run_evals
  exact runEvalsAux_frame _ 0 _

/-- A successful loop iteration advances the step counter by exactly one,
preserves the task count and scheduling functions, records exactly one
`stepped` event, and records an `evaled` event iff `eval_at` fired at the
new step. -/
theorem runOneIteration_spec (trainer : Trainer V) (s s' : RunState V)
    (h : Loop.runOneIteration trainer s = Except.ok s') :
    s'.loop.step = s.loop.step + 1 ∧
      s'.loop.tasks.length = s.loop.tasks.length ∧
      s'.loop.task_at = s.loop.task_at ∧
      s'.loop.eval_at = s.loop.eval_at ∧
      countStepped s'.events = countStepped s.events + 1 ∧
      countEvaled s'.events = countEvaled s.events +
        (if s.loop.eval_at (s.loop.step + 1) = true then 1 else 0) := by
  simp only [Loop.runOneIteration] at h
  split at h
  · cases h
  · rename_i l1 hone
    obtain ⟨h1, h2, h3, h4, h5⟩ := run_one_step_spec trainer _ _ _ hone
    dsimp only at h1 h2 h3 h4 h5
    split at h
    · rename_i he
      cases h
      obtain ⟨f1, f2, f3, f4, f5⟩ := run_evals_frame
        { l1 with eval_weights := l1.weights }
      have hcond : s.loop.eval_at (s.loop.step + 1) = true := by
        rw [← h4, ← h1]; exact he
      refine ⟨?_, ?_, ?_, ?_, ?_, ?_⟩
      · rw [f1]; exact h1
      · rw [f2]; exact h2
      · rw [f3]; exact h3
      · rw [f4]; exact h4
      · by_cases hc : l1.checkpoint_at l1.step = true <;>
          simp [hc, countStepped_append, countStepped]
      · rw [hcond]
        by_cases hc : l1.checkpoint_at l1.step = true <;>
          simp [hc, countEvaled_append, countEvaled]
    · rename_i he
      cases h
      have hcond : ¬ s.loop.eval_at (s.loop.step + 1) = true := by
        rw [← h4, ← h1]; exact he
      refine ⟨h1, h2, h3, h4, ?_, ?_⟩
      · by_cases hc : l1.checkpoint_at l1.step = true <;>
          simp [hc, countStepped_append, countStepped]
      · rw [if_neg hcond]
        by_cases hc : l1.checkpoint_at l1.step = true <;>
          simp [hc, countEvaled_append, countEvaled]

/-- A loop iteration succeeds whenever `task_at` stays within the task list. -/
theorem runOneIteration_isOk (trainer : Trainer V) (s : RunState V)
    (ht : ∀ k, s.loop.task_at k < s.loop.tasks.length) :
    (Loop.runOneIteration trainer s).isOk = true := by
  simp only [Loop.runOneIteration]
  split
  · rename_i e heq
    have hok := run_one_step_isOk trainer
      { s.loop with step := s.loop.step + 1 }
      (s.loop.task_at (s.loop.step + 1)) (ht (s.loop.step + 1))
    rw [heq] at hok
    cases hok
  · rename_i l1 heq
    by_cases he : l1.eval_at l1.step = true <;>
      simp [he, Except.isOk, Except.toBool]

/-- A successful `n`-iteration loop advances the step counter by exactly `n`,
records exactly `n` training steps, preserves the task frame, and — when the
eval predicate is constantly false — records no eval activations. -/
theorem runLoop_spec (trainer : Trainer V) (n : Nat) (s s' : RunState V)
    (h : Loop.runLoop trainer n s = Except.ok s') :
    s'.loop.step = s.loop.step + n ∧
      s'.loop.tasks.length = s.loop.tasks.length ∧
      s'.loop.task_at = s.loop.task_at ∧
      s'.loop.eval_at = s.loop.eval_at ∧
      countStepped s'.events = countStepped s.events + n ∧
      ((∀ k, s.loop.eval_at k = false) →
        countEvaled s'.events = countEvaled s.events) := by
  induction n generalizing s with
  | zero =>
    cases h
    exact ⟨by simp, rfl, rfl, rfl, by simp, fun _ => rfl⟩
  | succ m ih =>
    simp only [Loop.runLoop] at h
    split at h
    · cases h
    · rename_i s1 hiter
      obtain ⟨g1, g2, g3, g4, g5, g6⟩ := runOneIteration_spec trainer s s1 hiter
      obtain ⟨i1, i2, i3, i4, i5, i6⟩ := ih s1 h
      refine ⟨?_, ?_, ?_, ?_, ?_, ?_⟩
      · rw [i1, g1]; push_cast; ring
      · rw [i2, g2]
      · rw [i3, g3]
      · rw [i4, g4]
      · rw [i5, g5]; omega
      · intro hall
        have hall1 : ∀ k, s1.loop.eval_at k = false := by
          intro k; rw [g4]; exact hall k
        rw [i6 hall1, g6, hall (s.loop.step + 1)]
        simp

/-- The loop succeeds whenever `task_at` stays within the task list. -/
theorem runLoop_isOk (trainer : Trainer V) (n : Nat) (s : RunState V)
    (ht : ∀ k, s.loop.task_at k < s.loop.tasks.length) :
    (Loop.runLoop trainer n s).isOk = true := by
  induction n generalizing s with
  | zero => rfl
  | succ m ih =>
    simp only [Loop.runLoop]
    split
    · rename_i e heq
      have hok := runOneIteration_isOk trainer s ht
      rw [heq] at hok
      cases hok
    · rename_i s1 heq
      apply ih
      obtain ⟨g1, g2, g3, g4, g5, g6⟩ := runOneIteration_spec trainer s s1 heq
      intro k
      rw [g3, g2]
      exact ht k

/-! ### C1 -/

/-- C1: for every Loop whose task selector stays within the task list (the
spec's data-model invariant) and every `n ≥ 0`, `run(n)` succeeds, executes
exactly `n` sequential training steps (the trace records exactly `n`
`stepped` events, one per loop iteration), and leaves the step counter at
its pre-call value plus `n` — no other part of `run` (checkpointing, evals,
logging accumulators) moves the counter. -/
theorem claim_C1 (V : Type) (trainer : Trainer V) (l : Loop V)
    (fs : Fs (Checkpoint V)) (n : Nat)
    (ht : ∀ k, l.task_at k < l.tasks.length) :
    ((Loop.run trainer n l fs).isOk = true) ∧
      ∀ s', Loop.run trainer n l fs = Except.ok s' →
        s'.loop.step = l.step + n ∧ countStepped s'.events = n := by
  unfold Loop.run
  have hok := runLoop_isOk trainer n
    { loop := l, fs := fs, step_acc := 0, events := [] } ht
  constructor
  · cases hrl : Loop.runLoop trainer n
        { loop := l, fs := fs, step_acc := 0, events := [] } with
    | error e => rw [hrl] at hok; cases hok
    | ok s0 => rfl
  · intro s' hs'
    cases hrl : Loop.runLoop trainer n
        { loop := l, fs := fs, step_acc := 0, events := [] } with
    | error e => rw [hrl] at hs'; cases hs'
    | ok s0 =>
      rw [hrl] at hs'
      dsimp only at hs'
      cases hs'
      obtain ⟨p1, p2, p3, p4, p5, p6⟩ := runLoop_spec trainer n _ s0 hrl
      exact ⟨p1, p5.trans (Nat.zero_add n)⟩

/-- C1 witness: running the concrete single-task Loop (step 7) for three
steps succeeds, ends at step 10, and the trace shows exactly three executed
training steps. -/
theorem claim_C1_witness :
    witRun3.loop.step = witLoop.step + 3 ∧ countStepped witRun3.events = 3 :=
  (claim_C1 Nat witTrainer witLoop emptyFs 3 (fun _ => Nat.one_pos)).2
    witRun3 rfl

/-! ### Construction lemmas -/

/-- Assigning slots preserves the number of tasks. -/
theorem assignSlotsToTasks_length (ts : List (TrainTask V)) (ss : List V) :
    (assignSlotsToTasks ts ss).length = ts.length := by
  induction ts generalizing ss with
  | nil => cases ss <;> rfl
  | cons t ts' ih =>
    cases ss with
    | nil => rfl
    | cons s ss' => simp [assignSlotsToTasks, ih]

/-- A successful `load_checkpoint` never changes the scheduling functions,
the output directory or the number of tasks. -/
theorem load_checkpoint_frame (l : Loop V) (fs : Fs (Checkpoint V))
    (directory filename : Option String) (l' : Loop V)
    (h : l.load_checkpoint fs directory filename = Except.ok l') :
    l'.eval_at = l.eval_at ∧ l'.checkpoint_at = l.checkpoint_at ∧
      l'.task_at = l.task_at ∧ l'.tasks.length = l.tasks.length ∧
      l'.output_dir = l.output_dir := by
  unfold Loop.load_checkpoint at h
  split at h
  · cases h; exact ⟨rfl, rfl, rfl, rfl, rfl⟩
  · split at h
    · cases h; exact ⟨rfl, rfl, rfl, rfl, rfl⟩
    · split at h
      · cases h
      · cases h
        exact ⟨rfl, rfl, rfl, assignSlotsToTasks_length _ _, rfl⟩

/-- Under the JAX backend, a nonzero explicit device count different from
the backend-reported count makes `init_host_and_devices` raise. -/
theorem init_host_and_devices_conflict (info : BackendInfo) (entropy : Nat)
    (d : Nat) (rs : Option Nat) (hd0 : d ≠ 0) (hdc : d ≠ info.device_count)
    (hb : info.backend = Backend.JAX) :
    init_host_and_devices info entropy (some d) rs
      = Except.error "JAX cannot work yet with n_devices != all devices" := by
  unfold init_host_and_devices
  simp [hd0, hdc, hb]

/-- A successful `run` on a Loop whose eval predicate is constantly false
records no eval activations. -/
theorem run_never_evals (trainer : Trainer V) (n : Nat) (l : Loop V)
    (fs : Fs (Checkpoint V)) (s' : RunState V)
    (hnever : ∀ k, l.eval_at k = false)
    (h : Loop.run trainer n l fs = Except.ok s') :
    countEvaled s'.events = 0 := by
  unfold Loop.run at h
  cases hrl : Loop.runLoop trainer n
      { loop := l, fs := fs, step_acc := 0, events := [] } with
  | error e => rw [hrl] at h; cases h
  | ok s0 =>
    rw [hrl] at h
    dsimp only at h
    cases h
    obtain ⟨p1, p2, p3, p4, p5, p6⟩ := runLoop_spec trainer n _ s0 hrl
    exact p6 hnever

/-! ### C6 -/

/-- C6 counterexample: under a non-JAX backend an explicit device count (5)
conflicting with the backend-reported count (1) does not fail — the Loop
constructs successfully. -/
theorem claim_C6_counterexample :
    ((Loop.make witTFInfo 0 witModelInit witModelInit [witTask]
        none none none none none (some 5) none emptyFs).isOk = true) ∧
      (5 : Nat) ≠ witTFInfo.device_count := by
  exact ⟨rfl, by decide⟩

/-- C6 (amended): orchestrator construction fails in each of these cases:
the task list is empty; more than one task is given without an explicit
`task_at` selector; a nonzero explicit device count conflicts with the
backend-reported device count *and* the execution backend is JAX (non-JAX
backends skip the device-count check, and an explicit count of 0 is treated
by Python truthiness as unset). -/
theorem claim_C6 (info : BackendInfo) (entropy : Nat)
    (model_init eval_model_init : List Bool → V → V × V)
    (tasks : List (TrainTask V))
    (eval_tasks : Option (List (Option (EvalTask V))))
    (output_dir : Option String)
    (checkpoint_at eval_at : Option (Int → Bool))
    (task_at : Option (Int → Nat))
    (n_devices : Option Nat) (random_seed : Option Nat)
    (fs : Fs (Checkpoint V)) :
    (tasks = [] →
      (Loop.make info entropy model_init eval_model_init tasks eval_tasks
        output_dir checkpoint_at eval_at task_at n_devices random_seed
        fs).isOk = false) ∧
    (2 ≤ tasks.length → task_at = none →
      (Loop.make info entropy model_init eval_model_init tasks eval_tasks
        output_dir checkpoint_at eval_at task_at n_devices random_seed
        fs).isOk = false) ∧
    (∀ d, n_devices = some d → d ≠ 0 → d ≠ info.device_count →
      info.backend = Backend.JAX →
      (Loop.make info entropy model_init eval_model_init tasks eval_tasks
        output_dir checkpoint_at eval_at task_at n_devices random_seed
        fs).isOk = false) := by
  refine ⟨?_, ?_, ?_⟩
  · intro hnil
    subst hnil
    unfold Loop.make
    split
    · rfl
    · rfl
  · intro hlen hta
    subst hta
    unfold Loop.make
    split
    · rfl
    · rename_i val a b c r heq
      cases tasks with
      | nil => rfl
      | cons t0 rest =>
        have hne1 : ¬ (t0 :: rest).length = 1 := by
          simp only [List.length_cons] at hlen ⊢
          omega
        simp only [if_neg hne1]
        rfl
  · intro d hnd hd0 hdc hb
    subst hnd
    unfold Loop.make
    rw [init_host_and_devices_conflict info entropy d random_seed hd0 hdc hb]
    rfl

/-- C6 witness: the three amended failure cases at concrete inputs — empty
task list, two tasks without `task_at`, and a JAX-backend device conflict. -/
theorem claim_C6_witness :
    ((Loop.make witTFInfo 0 witModelInit witModelInit ([] : List (TrainTask Nat))
        none none none none none none none emptyFs).isOk = false) ∧
    ((Loop.make witTFInfo 0 witModelInit witModelInit [witTask, witTask]
        none none none none none none none emptyFs).isOk = false) ∧
    ((Loop.make witJAXInfo 0 witModelInit witModelInit [witTask]
        none none none none none (some 2) none emptyFs).isOk = false) :=
  ⟨(claim_C6 witTFInfo 0 witModelInit witModelInit [] none none none none
      none none none emptyFs).1 rfl,
   (claim_C6 witTFInfo 0 witModelInit witModelInit [witTask, witTask] none
      none none none none none none emptyFs).2.1 (by decide) rfl,
   (claim_C6 witJAXInfo 0 witModelInit witModelInit [witTask] none none none
      none none (some 2) none emptyFs).2.2 2 rfl (by decide) (by decide) rfl⟩

/-! ### C10 -/

/-- C10: when a Loop is constructed with `eval_tasks = None`, any
caller-supplied `eval_at` predicate is silently replaced by the
always-false `_never`, so `run` never takes the eval/logging branch; only
when `eval_tasks` is non-None does the supplied `eval_at` (or, when `None`,
the default periodic predicate derived from the first task's checkpoint
period) take effect. -/
theorem claim_C10 (info : BackendInfo) (entropy : Nat)
    (model_init eval_model_init : List Bool → V → V × V)
    (tasks : List (TrainTask V)) (output_dir : Option String)
    (checkpoint_at eval_at : Option (Int → Bool)) (task_at : Option (Int → Nat))
    (n_devices random_seed : Option Nat) (fs : Fs (Checkpoint V)) :
    (∀ l, Loop.make info entropy model_init eval_model_init tasks none
        output_dir checkpoint_at eval_at task_at n_devices random_seed fs
        = Except.ok l →
      (∀ k, l.eval_at k = false) ∧
      ∀ (trainer : Trainer V) (n : Nat) (fs' : Fs (Checkpoint V))
        (s' : RunState V), Loop.run trainer n l fs' = Except.ok s' →
          countEvaled s'.events = 0) ∧
    (∀ ets f l2, Loop.make info entropy model_init eval_model_init tasks
        (some ets) output_dir checkpoint_at (some f) task_at n_devices
        random_seed fs = Except.ok l2 →
      l2.eval_at = f) ∧
    (∀ ets t0 rest l2, tasks = t0 :: rest →
      Loop.make info entropy model_init eval_model_init tasks (some ets)
        output_dir checkpoint_at none task_at n_devices random_seed fs
        = Except.ok l2 →
      l2.eval_at = _at_step_1_and_every_nth_step t0.n_steps_per_checkpoint) := by
  refine ⟨?_, ?_, ?_⟩
  · intro l hmk
    have heval : ∀ k, l.eval_at k = false := by
      simp only [Loop.make] at hmk
      split at hmk
      · cases hmk
      · split at hmk
        · cases hmk
        · split at hmk
          · split at hmk
            · obtain ⟨hf, _⟩ := load_checkpoint_frame _ _ _ _ _ hmk
              intro k
              rw [hf]
              rfl
            · cases hmk
          · obtain ⟨hf, _⟩ := load_checkpoint_frame _ _ _ _ _ hmk
            intro k
            rw [hf]
            rfl
    exact ⟨heval, fun trainer n fs' s' hrun =>
      run_never_evals trainer n l fs' s' heval hrun⟩
  · intro ets f l2 hmk
    simp only [Loop.make] at hmk
    split at hmk
    · cases hmk
    · split at hmk
      · cases hmk
      · split at hmk
        · split at hmk
          · obtain ⟨hf, _⟩ := load_checkpoint_frame _ _ _ _ _ hmk
            rw [hf]
          · cases hmk
        · obtain ⟨hf, _⟩ := load_checkpoint_frame _ _ _ _ _ hmk
          rw [hf]
  · intro ets t0 rest l2 htasks hmk
    subst htasks
    cases task_at with
    | none =>
      simp only [Loop.make] at hmk
      split at hmk
      · cases hmk
      · by_cases h1 : (t0 :: rest).length = 1
        · rw [if_pos h1] at hmk
          obtain ⟨hf, _⟩ := load_checkpoint_frame _ _ _ _ _ hmk
          rw [hf]
        · rw [if_neg h1] at hmk
          cases hmk
    | some ta =>
      simp only [Loop.make] at hmk
      split at hmk
      · cases hmk
      · obtain ⟨hf, _⟩ := load_checkpoint_frame _ _ _ _ _ hmk
        rw [hf]

/-- C10 witness: the concrete Loop built with `eval_tasks = None` and an
always-true caller `eval_at` has an always-false effective predicate, and a
two-step run records zero eval activations. -/
theorem claim_C10_witness :
    (witLoopC10.eval_at 1 = false) ∧ (countEvaled witRunC10.events = 0) :=
  ⟨((claim_C10 witTFInfo 0 witModelInit witModelInit [witTask] none none
      (some (fun _ => true)) none none (some 1) emptyFs).1 witLoopC10 rfl).1 1,
   ((claim_C10 witTFInfo 0 witModelInit witModelInit [witTask] none none
      (some (fun _ => true)) none none (some 1) emptyFs).1 witLoopC10 rfl).2
     witTrainer 2 emptyFs witRunC10 rfl⟩
